import Mathlib

/-!
# Verification of the telemetry aggregation backend

A shallow embedding of the time-window planning and response-reduction
pipeline of the IndusMind telemetry backend (TypeScript), together with
theorems settling the specification claims about it.

Conventions used throughout:

* Timestamps are UTC epoch milliseconds, embedded as `Int` (JS numbers are
  exact on this range).
* Telemetry values are embedded as `ℚ`; a raw value that `parseFloat`
  cannot parse (`NaN`) is embedded as `none : Option ℚ`.
* The services call the JS runtime's `Date`.  That runtime is external to
  the repository, so its UTC calendar operations are modelled from the
  ECMAScript specification: civil dates are decomposed through 400-year
  Gregorian eras (146097 days), a March-based year-of-era, and day-of-year
  month tables.  Local-time `Date` methods take the runtime's UTC offset
  `off` (milliseconds added to UTC to obtain wall-clock time) as an
  explicit parameter.
-/

namespace IndusMind

set_option maxRecDepth 10000

/-- Milliseconds per day. -/
def msPerDay : Int := 86400000

/-! ## Civil calendar (model of the ECMAScript `Date` UTC operations) -/

/-- Length in days of the March-based year-of-era `yoe` (`0`–`399`): the year
running from 1 March of calendar year `yoe` of the era to end of February of
calendar year `yoe+1`.  It is long iff calendar year `yoe+1` is a Gregorian
leap year. -/
def yearLength (yoe : Nat) : Nat :=
  if ((yoe + 1) % 4 = 0 ∧ (yoe + 1) % 100 ≠ 0) ∨ (yoe + 1) % 400 = 0 then 366 else 365

/-- Days from the era start (1 March of year 0 of the era) to the start of
year-of-era `yoe`. -/
def yearStart (yoe : Nat) : Nat := 365 * yoe + yoe / 4 - yoe / 100 + yoe / 400

set_option maxHeartbeats 1600000 in
theorem yearStart_succ (yoe : Nat) :
    yearStart (yoe + 1) = yearStart yoe + yearLength yoe := by
  unfold yearStart yearLength
  split <;> omega

theorem yearLength_pos (yoe : Nat) : 365 ≤ yearLength yoe := by
  simp only [yearLength]; split <;> omega

theorem yearLength_le (yoe : Nat) : yearLength yoe ≤ 366 := by
  simp only [yearLength]; split <;> omega

theorem yearStart_strictMono : StrictMono yearStart :=
  strictMono_nat_of_lt_succ fun n => by
    have h1 := yearStart_succ n
    have h2 := yearLength_pos n
    omega

/-- Find the year-of-era containing day-of-era `doe` by walking year starts. -/
def yoeDoyAux (doe : Nat) : Nat → Nat → Nat × Nat
  | 0, yoe => (yoe, doe - yearStart yoe)
  | fuel + 1, yoe =>
    if yearStart (yoe + 1) ≤ doe then yoeDoyAux doe fuel (yoe + 1)
    else (yoe, doe - yearStart yoe)

/-- Year-of-era and day-of-year of a day-of-era `doe < 146097`. -/
def yoeDoy (doe : Nat) : Nat × Nat := yoeDoyAux doe 399 0

theorem yoeDoyAux_bracket (doe : Nat) :
    ∀ fuel yoe, yearStart yoe ≤ doe → doe < yearStart (yoe + fuel + 1) →
      yearStart (yoeDoyAux doe fuel yoe).1 ≤ doe
      ∧ doe < yearStart ((yoeDoyAux doe fuel yoe).1 + 1)
      ∧ (yoeDoyAux doe fuel yoe).2 = doe - yearStart (yoeDoyAux doe fuel yoe).1 := by
  intro fuel
  induction fuel with
  | zero =>
    intro yoe hlo hhi
    exact ⟨hlo, hhi, rfl⟩
  | succ n ih =>
    intro yoe hlo hhi
    by_cases h : yearStart (yoe + 1) ≤ doe
    · have hhi' : doe < yearStart (yoe + 1 + n + 1) := by
        have harr : yoe + 1 + n + 1 = yoe + (n + 1) + 1 := by omega
        rw [harr]
        exact hhi
      have := ih (yoe + 1) h hhi'
      simpa only [yoeDoyAux, h, if_true] using this
    · simp only [yoeDoyAux, h, if_false]
      exact ⟨hlo, by omega, by trivial⟩

theorem yearStart_400 : yearStart 400 = 146097 := by decide

theorem yoeDoy_bracket (doe : Nat) (h : doe < 146097) :
    yearStart (yoeDoy doe).1 ≤ doe
    ∧ doe < yearStart ((yoeDoy doe).1 + 1)
    ∧ (yoeDoy doe).2 = doe - yearStart (yoeDoy doe).1 := by
  have h0 : yearStart 0 ≤ doe := by simp [yearStart]
  have h1 : doe < yearStart (0 + 399 + 1) := by
    have harr : 0 + 399 + 1 = 400 := by omega
    rw [harr, yearStart_400]
    exact h
  exact yoeDoyAux_bracket doe 399 0 h0 h1

/-- The bracket `yearStart y ≤ x < yearStart (y+1)` determines `y` uniquely. -/
theorem yearStart_bracket_unique {x a b : Nat}
    (ha1 : yearStart a ≤ x) (ha2 : x < yearStart (a + 1))
    (hb1 : yearStart b ≤ x) (hb2 : x < yearStart (b + 1)) : a = b := by
  rcases Nat.lt_trichotomy a b with hab | hab | hab
  · have : yearStart (a + 1) ≤ yearStart b := yearStart_strictMono.monotone (by omega)
    omega
  · exact hab
  · have : yearStart (b + 1) ≤ yearStart a := yearStart_strictMono.monotone (by omega)
    omega

theorem yoeDoy_eq (y d : Nat) (hy : y ≤ 399) (hd : d < yearLength y) :
    yoeDoy (yearStart y + d) = (y, d) := by
  have hsucc := yearStart_succ y
  have hlt : yearStart y + d < 146097 := by
    have h1 : yearStart (y + 1) ≤ yearStart 400 := yearStart_strictMono.monotone (by omega)
    rw [yearStart_400] at h1
    omega
  obtain ⟨h1, h2, h3⟩ := yoeDoy_bracket (yearStart y + d) hlt
  have hyeq : (yoeDoy (yearStart y + d)).1 = y :=
    yearStart_bracket_unique h1 h2 (by omega) (by omega)
  have : (yoeDoy (yearStart y + d)).2 = d := by rw [h3, hyeq]; omega
  exact Prod.ext hyeq this

/-- Model of `mp`: March-based month index (0 = March … 11 = February) of a day-of-year. -/
def mpOfDoy (doy : Nat) : Nat := (5 * doy + 2) / 153

/-- First day-of-year of March-based month `mp`. -/
def monthFirstDoy (mp : Nat) : Nat := (153 * mp + 2) / 5

/-- Day of month (1-based) of a day-of-year. -/
def dayOfDoy (doy : Nat) : Nat := doy - monthFirstDoy (mpOfDoy doy) + 1

/-- Calendar month (1 = January … 12 = December) of a day-of-year. -/
def monthOfDoy (doy : Nat) : Nat :=
  if mpOfDoy doy < 10 then mpOfDoy doy + 3 else mpOfDoy doy - 9

/-- The month table is coherent: the first day-of-year of the month containing
`doy` is at most `doy`, is itself day 1 of the same month, and `doy` does not
run past February of the March-based year. -/
theorem monthTable_ok : ∀ doy : Nat, doy < 366 →
    monthFirstDoy (mpOfDoy doy) ≤ doy
    ∧ dayOfDoy (monthFirstDoy (mpOfDoy doy)) = 1
    ∧ monthOfDoy (monthFirstDoy (mpOfDoy doy)) = monthOfDoy doy := by
  decide

/-! ### Day-number (epoch-day) decomposition through 400-year eras -/

/-- The 400-year era of an epoch day number (era 0 starts 1 March of year 0). -/
def eraOfDay (z : Int) : Int := (z + 719468) / 146097

/-- Day-of-era (`0`–`146096`) of an epoch day number. -/
def doeOfDay (z : Int) : Nat := ((z + 719468) % 146097).toNat

theorem doeOfDay_lt (z : Int) : doeOfDay z < 146097 := by
  have h1 : (z + 719468) % 146097 < 146097 := Int.emod_lt_of_pos _ (by norm_num)
  have h2 : 0 ≤ (z + 719468) % 146097 := Int.emod_nonneg _ (by norm_num)
  simp only [doeOfDay]
  omega

theorem era_doe_decomp (z : Int) :
    z + 719468 = eraOfDay z * 146097 + (doeOfDay z : Int) := by
  have h2 : 0 ≤ (z + 719468) % 146097 := Int.emod_nonneg _ (by norm_num)
  have := Int.ediv_add_emod (z + 719468) 146097
  simp only [eraOfDay, doeOfDay]
  omega

/-- A day number with the same era and a day-of-era given explicitly has that
day-of-era. -/
theorem doeOfDay_of_decomp (z : Int) (era : Int) (s : Nat) (hs : s < 146097)
    (h : z + 719468 = era * 146097 + (s : Int)) : doeOfDay z = s := by
  have hmod : (z + 719468) % 146097 = (s : Int) := by
    rw [h, add_comm, Int.add_mul_emod_self]
    exact Int.emod_eq_of_lt (by positivity) (by exact_mod_cast hs)
  simp only [doeOfDay, hmod, Int.toNat_natCast]

/-- Day of month (1-based) of an epoch day number, as `Date.prototype.getUTCDate`
computes it. -/
def dayOfMonthOfDay (z : Int) : Nat := dayOfDoy (yoeDoy (doeOfDay z)).2

/-- Calendar month (1-based) of an epoch day number. -/
def monthOfDay (z : Int) : Nat := monthOfDoy (yoeDoy (doeOfDay z)).2

/-- Calendar year of an epoch day number. -/
def yearOfDay (z : Int) : Int :=
  ((yoeDoy (doeOfDay z)).1 : Int) + eraOfDay z * 400
    + (if monthOfDay z ≤ 2 then 1 else 0)

/-- Stepping back `dayOfMonth − 1` days from any epoch day lands on day 1 of a
month.  This is the key fact behind the last-month window boundary. -/
theorem dayOfMonth_back_to_first (z : Int) :
    dayOfMonthOfDay (z + 1 - (dayOfMonthOfDay z : Int)) = 1 := by
  obtain ⟨hb1, hb2, hb3⟩ := yoeDoy_bracket (doeOfDay z) (doeOfDay_lt z)
  have hyoe399 : (yoeDoy (doeOfDay z)).1 ≤ 399 := by
    by_contra hcon
    have h400 : yearStart 400 ≤ yearStart (yoeDoy (doeOfDay z)).1 :=
      yearStart_strictMono.monotone (by omega)
    rw [yearStart_400] at h400
    have := doeOfDay_lt z
    omega
  have hsucc := yearStart_succ (yoeDoy (doeOfDay z)).1
  have hdoylt : (yoeDoy (doeOfDay z)).2 < yearLength (yoeDoy (doeOfDay z)).1 := by omega
  have hdoy366 : (yoeDoy (doeOfDay z)).2 < 366 :=
    lt_of_lt_of_le hdoylt (yearLength_le _)
  obtain ⟨hm1, hm2, _⟩ := monthTable_ok _ hdoy366
  have hmflt : monthFirstDoy (mpOfDoy (yoeDoy (doeOfDay z)).2)
      < yearLength (yoeDoy (doeOfDay z)).1 := lt_of_le_of_lt hm1 hdoylt
  have hdNat : dayOfMonthOfDay z
      = (yoeDoy (doeOfDay z)).2 - monthFirstDoy (mpOfDoy (yoeDoy (doeOfDay z)).2) + 1 := rfl
  have hsdecomp : z + 1 - (dayOfMonthOfDay z : Int) + 719468
      = eraOfDay z * 146097
        + ((yearStart (yoeDoy (doeOfDay z)).1
            + monthFirstDoy (mpOfDoy (yoeDoy (doeOfDay z)).2) : Nat) : Int) := by
    have hz := era_doe_decomp z
    have hdoeeq : doeOfDay z
        = yearStart (yoeDoy (doeOfDay z)).1 + (yoeDoy (doeOfDay z)).2 := by omega
    rw [hdNat]
    omega
  have hslt : yearStart (yoeDoy (doeOfDay z)).1
      + monthFirstDoy (mpOfDoy (yoeDoy (doeOfDay z)).2) < 146097 := by
    have h400 : yearStart ((yoeDoy (doeOfDay z)).1 + 1) ≤ yearStart 400 :=
      yearStart_strictMono.monotone (by omega)
    rw [yearStart_400] at h400
    omega
  have hdoe' := doeOfDay_of_decomp _ (eraOfDay z) _ hslt hsdecomp
  show dayOfDoy (yoeDoy (doeOfDay (z + 1 - (dayOfMonthOfDay z : Int)))).2 = 1
  rw [hdoe', yoeDoy_eq _ _ hyoe399 hmflt]
  exact hm2

/-! ### Millisecond-level `Date` operations -/

/-- Epoch day containing a UTC millisecond timestamp. -/
def epochDay (ts : Int) : Int := ts / msPerDay

/-- Milliseconds since UTC midnight. -/
def timeWithinDay (ts : Int) : Int := ts % msPerDay

/-- Model of `setUTCHours(0,0,0,0)`. -/
def utcMidnight (ts : Int) : Int := epochDay ts * msPerDay

/-- Model of `setUTCHours(23,59,59,999)`. -/
def utcEndOfDay (ts : Int) : Int := utcMidnight ts + (msPerDay - 1)

/-- Model of `getUTCDate()` (day of month, 1-based). -/
def getUTCDate (ts : Int) : Nat := dayOfMonthOfDay (epochDay ts)

/-- Model of `getUTCMonth()` (0-based month, as in JS). -/
def getUTCMonth (ts : Int) : Nat := monthOfDay (epochDay ts) - 1

/-- Model of `getUTCFullYear()`. -/
def getUTCFullYear (ts : Int) : Int := yearOfDay (epochDay ts)

/-- Model of `setUTCDate(n)`: move to day `n` of the current month, keeping the time of
day (ECMAScript `MakeDay` semantics; values outside 1..daysInMonth overflow
into adjacent months). -/
def setUTCDate (n : Int) (ts : Int) : Int :=
  ts + (n - (getUTCDate ts : Int)) * msPerDay

/-- ECMAScript `MakeDay(y, mIdx, d)`: epoch day of day `d` (1-based, may
overflow) of 0-based month `mIdx` (normalised into the year) of year `y`. -/
def makeDay (y : Int) (mIdx : Int) (d : Int) : Int :=
  let ym : Int := y + mIdx / 12
  let m : Nat := (mIdx % 12).toNat + 1
  let yAdj : Int := ym - (if m ≤ 2 then 1 else 0)
  let era : Int := yAdj / 400
  let yoe : Nat := (yAdj % 400).toNat
  let mp : Nat := if 2 < m then m - 3 else m + 9
  era * 146097 + ((yearStart yoe + monthFirstDoy mp : Nat) : Int) + d - 1 - 719468

/-- Model of `setUTCMonth(mIdx)`: move to 0-based month `mIdx` of the current year,
keeping day of month and time of day. -/
def setUTCMonth (mIdx : Int) (ts : Int) : Int :=
  makeDay (getUTCFullYear ts) mIdx (getUTCDate ts) * msPerDay + timeWithinDay ts

/-- Epoch-day number of the first day of (1-based) month `m` of year `y`,
i.e. `Date.UTC(y, m-1, 1) / msPerDay`. -/
def firstOfMonthDay (y : Int) (m : Nat) : Int := makeDay y ((m : Int) - 1) 1

/-! ### Local-time `Date` operations (runtime UTC offset `off`) -/

/-- Model of `setHours(0,0,0,0)` under UTC offset `off`. -/
def localMidnight (off ts : Int) : Int := ((ts + off) / msPerDay) * msPerDay - off

/-- Model of `getDate()` under UTC offset `off`. -/
def getLocalDate (off ts : Int) : Nat := dayOfMonthOfDay ((ts + off) / msPerDay)

/-- Model of `getMonth()` (0-based) under UTC offset `off`. -/
def getLocalMonth (off ts : Int) : Nat := monthOfDay ((ts + off) / msPerDay) - 1

/-- Model of `getFullYear()` under UTC offset `off`. -/
def getLocalFullYear (off ts : Int) : Int := yearOfDay ((ts + off) / msPerDay)

/-- Model of `new Date(y, mIdx, d).getTime()` under UTC offset `off` (local-midnight
constructor). -/
def newLocalDate (off y mIdx d : Int) : Int := makeDay y mIdx d * msPerDay - off

/-- Model of `new Date(y, mIdx+1, 0).getDate()`: number of days in 0-based month `mIdx`
of year `y`. -/
def daysInMonth (y : Int) (mIdx : Int) : Nat := dayOfMonthOfDay (makeDay y (mIdx + 1) 0)

-- Sanity checks of the calendar model on known dates.
example : yearOfDay 0 = 1970 ∧ monthOfDay 0 = 1 ∧ dayOfMonthOfDay 0 = 1 := by decide
example : makeDay 1970 0 1 = 0 := by decide
example : makeDay 2024 1 29 = 19782 := by decide
example : yearOfDay 19782 = 2024 ∧ monthOfDay 19782 = 2 ∧ dayOfMonthOfDay 19782 = 29 := by
  decide
example : yearOfDay 19783 = 2024 ∧ monthOfDay 19783 = 3 ∧ dayOfMonthOfDay 19783 = 1 := by
  decide
example : daysInMonth 2024 1 = 29 ∧ daysInMonth 2023 1 = 28 ∧ daysInMonth 2024 0 = 31 := by
  decide
example : yearOfDay (-1) = 1969 ∧ monthOfDay (-1) = 12 ∧ dayOfMonthOfDay (-1) = 31 := by
  decide

/-! ## Time windows computed by the view services -/

/-- A time window `{start, end}` in epoch milliseconds (the JS objects use
field name `end`, a Lean keyword, rendered here as `endTs`). -/
structure TimeRange where
  start : Int
  endTs : Int
deriving Repr, DecidableEq

namespace PuissanceService

/-- The record returned by `PuissanceService.calculateTimeRanges`. -/
structure TimeRanges where
  last1h : TimeRange
  last24h : TimeRange
  today : TimeRange
  yesterday : TimeRange
  thisMonth : TimeRange
  lastMonth : TimeRange
  last12Months : TimeRange
deriving Repr, DecidableEq

/-- Model of `PuissanceService.calculateTimeRanges` (puissance.service.ts): pure UTC
`Date` arithmetic on the reference instant `now`. -/
def calculateTimeRanges (now : Int) : TimeRanges :=
  let todayStart := utcMidnight now
  let yesterdayStart := setUTCDate ((getUTCDate todayStart : Int) - 1) todayStart
  let thisMonthStart := utcMidnight (setUTCDate 1 now)
  let lastMonthStart := setUTCMonth ((getUTCMonth thisMonthStart : Int) - 1) thisMonthStart
  let lastMonthEnd := utcEndOfDay (setUTCDate 0 thisMonthStart)
  let last12MonthsStart := setUTCMonth ((getUTCMonth thisMonthStart : Int) - 12) thisMonthStart
  { last1h := ⟨now - 3600000, now⟩
    last24h := ⟨now - 86400000, now⟩
    today := ⟨todayStart, now⟩
    yesterday := ⟨yesterdayStart, todayStart⟩
    thisMonth := ⟨thisMonthStart, now⟩
    lastMonth := ⟨lastMonthStart, lastMonthEnd⟩
    last12Months := ⟨last12MonthsStart, now⟩ }

end PuissanceService

namespace CurrentService

/-- The record returned by `CurrentService.calculateTimeRanges`. -/
structure TimeRanges where
  today : TimeRange
  lastHour : TimeRange
  last24h : TimeRange
  last7days : TimeRange
  last30days : TimeRange
  last365days : TimeRange
deriving Repr, DecidableEq

/-- Model of `CurrentService.calculateTimeRanges` (current.service.ts).  Unlike the
puissance service this uses the local-time `setHours(0,0,0,0)`, so it takes
the runtime UTC offset `off` as a parameter. -/
def calculateTimeRanges (off now : Int) : TimeRanges :=
  let todayStartTs := localMidnight off now
  { today := ⟨todayStartTs, now⟩
    lastHour := ⟨now - 3600000, now⟩
    last24h := ⟨now - 86400000, now⟩
    last7days := ⟨now - 7 * 86400000, now⟩
    last30days := ⟨now - 30 * 86400000, now⟩
    last365days := ⟨now - 365 * 86400000, now⟩ }

end CurrentService

namespace GlobalMetersService

/-- The record returned by `GlobalMetersService.calculateTimeRanges`. -/
structure TimeRanges where
  last24h : TimeRange
  yesterday : TimeRange
  today : TimeRange
  last7Days : TimeRange
  lastYear : TimeRange
deriving Repr, DecidableEq

/-- Model of `GlobalMetersService.calculateTimeRanges` (global-meters service): pure
UTC `Date` arithmetic on the reference instant `now`. -/
def calculateTimeRanges (now : Int) : TimeRanges :=
  let todayStart := utcMidnight now
  let yesterdayStart := setUTCDate ((getUTCDate todayStart : Int) - 1) todayStart
  let last7DaysStart := setUTCDate ((getUTCDate todayStart : Int) - 7) todayStart
  let lastYearStart := setUTCDate ((getUTCDate todayStart : Int) - 365) todayStart
  { last24h := ⟨now - 86400000, now⟩
    yesterday := ⟨yesterdayStart, todayStart⟩
    today := ⟨todayStart, now⟩
    last7Days := ⟨last7DaysStart, now⟩
    lastYear := ⟨lastYearStart, now⟩ }

end GlobalMetersService

/-! ### Arithmetic facts about the millisecond-level operations -/

theorem msPerDay_pos : (0 : Int) < msPerDay := by norm_num [msPerDay]

theorem epochDay_mul_self (k : Int) : epochDay (k * msPerDay) = k :=
  Int.mul_ediv_cancel k (by norm_num [msPerDay])

theorem epochDay_add_mul (ts k : Int) : epochDay (ts + k * msPerDay) = epochDay ts + k :=
  Int.add_mul_ediv_right ts k (by norm_num [msPerDay])

theorem utcMidnight_of_mul (k : Int) : utcMidnight (k * msPerDay) = k * msPerDay := by
  simp [utcMidnight, epochDay_mul_self]

theorem utcMidnight_add_mul (ts k : Int) :
    utcMidnight (ts + k * msPerDay) = utcMidnight ts + k * msPerDay := by
  simp only [utcMidnight, epochDay_add_mul, add_mul]

theorem getUTCDate_of_mul (k : Int) : getUTCDate (k * msPerDay) = dayOfMonthOfDay k := by
  simp [getUTCDate, epochDay_mul_self]

/-- C5: for every reference instant `now`, the puissance view's windows
satisfy `yesterday.end = today.start`, and `lastMonth.end` is exactly the
last millisecond before `thisMonth.start` (i.e. `thisMonth.start - 1`),
uniformly over all months, including year rollover and leap February (the
statement quantifies over every instant, hence over every month shape). -/
theorem C5_window_boundaries (now : Int) :
    (PuissanceService.calculateTimeRanges now).yesterday.endTs
      = (PuissanceService.calculateTimeRanges now).today.start
    ∧ (PuissanceService.calculateTimeRanges now).lastMonth.endTs
      = (PuissanceService.calculateTimeRanges now).thisMonth.start - 1 := by
  constructor
  · rfl
  · show utcEndOfDay (setUTCDate 0 (utcMidnight (setUTCDate 1 now)))
        = utcMidnight (setUTCDate 1 now) - 1
    have h1 : setUTCDate 1 now = now + (1 - (getUTCDate now : Int)) * msPerDay := rfl
    have hz : utcMidnight now = epochDay now * msPerDay := rfl
    have htms : utcMidnight (setUTCDate 1 now)
        = (epochDay now + (1 - (getUTCDate now : Int))) * msPerDay := by
      rw [h1, utcMidnight_add_mul, hz, ← add_mul]
    have hone : getUTCDate (utcMidnight (setUTCDate 1 now)) = 1 := by
      rw [htms, getUTCDate_of_mul]
      have harg : epochDay now + (1 - (getUTCDate now : Int))
          = epochDay now + 1 - (dayOfMonthOfDay (epochDay now) : Int) := by
        simp only [getUTCDate]
        ring
      rw [harg]
      exact dayOfMonth_back_to_first (epochDay now)
    have hsd0 : setUTCDate 0 (utcMidnight (setUTCDate 1 now))
        = utcMidnight (setUTCDate 1 now) - msPerDay := by
      rw [setUTCDate, hone]
      push_cast
      ring
    have hmul : utcMidnight (setUTCDate 1 now) - msPerDay
        = (epochDay now + (1 - (getUTCDate now : Int)) - 1) * msPerDay := by
      rw [htms]
      ring
    rw [hsd0]
    show utcMidnight (utcMidnight (setUTCDate 1 now) - msPerDay) + (msPerDay - 1)
        = utcMidnight (setUTCDate 1 now) - 1
    rw [hmul, utcMidnight_of_mul, ← hmul]
    ring

/-- C6 counterexample: under a runtime UTC offset of +1h (e.g. Europe/Paris
in winter), the current view's `today.start` at `now = 0` is the local
midnight `-3600000`, not the UTC midnight `0` of the day containing `now`,
so the claim does not hold for every view service. -/
theorem C6_counterexample :
    (CurrentService.calculateTimeRanges 3600000 0).today.start = -3600000
    ∧ utcMidnight 0 = 0
    ∧ (CurrentService.calculateTimeRanges 3600000 0).today.start ≠ utcMidnight 0 := by
  refine ⟨?_, ?_, ?_⟩ <;> decide

/-- C6 amended: the puissance and global-meters services compute
`today = [midnight_UTC(now), now)`: the window start is the unique multiple
of `msPerDay` in `(now - msPerDay, now]`, and the window end is `now`.  The
current view instead computes `today.start` as the server-local midnight
(a point `≡ -off (mod msPerDay)` in the same interval); it coincides with
the UTC midnight exactly when the runtime UTC offset is zero. -/
theorem C6_today_window (off now : Int) :
    ((PuissanceService.calculateTimeRanges now).today.start % msPerDay = 0
      ∧ (PuissanceService.calculateTimeRanges now).today.start ≤ now
      ∧ now - msPerDay < (PuissanceService.calculateTimeRanges now).today.start
      ∧ (PuissanceService.calculateTimeRanges now).today.endTs = now)
    ∧ (GlobalMetersService.calculateTimeRanges now).today.start
        = (PuissanceService.calculateTimeRanges now).today.start
    ∧ (((CurrentService.calculateTimeRanges off now).today.start + off) % msPerDay = 0
      ∧ (CurrentService.calculateTimeRanges off now).today.start ≤ now
      ∧ now - msPerDay < (CurrentService.calculateTimeRanges off now).today.start
      ∧ (CurrentService.calculateTimeRanges off now).today.endTs = now)
    ∧ (CurrentService.calculateTimeRanges 0 now).today.start
        = (PuissanceService.calculateTimeRanges now).today.start := by
  have hms : (0 : Int) < msPerDay := msPerDay_pos
  have hle : now / msPerDay * msPerDay ≤ now := Int.ediv_mul_le now (by norm_num [msPerDay])
  have hlt : now < (now / msPerDay + 1) * msPerDay :=
    Int.lt_ediv_add_one_mul_self now hms
  have hexp : (now / msPerDay + 1) * msPerDay = now / msPerDay * msPerDay + msPerDay := by
    ring
  have hleL : (now + off) / msPerDay * msPerDay ≤ now + off :=
    Int.ediv_mul_le (now + off) (by norm_num [msPerDay])
  have hltL : now + off < ((now + off) / msPerDay + 1) * msPerDay :=
    Int.lt_ediv_add_one_mul_self (now + off) hms
  have hexpL : ((now + off) / msPerDay + 1) * msPerDay
      = (now + off) / msPerDay * msPerDay + msPerDay := by
    ring
  refine ⟨⟨?_, ?_, ?_, rfl⟩, rfl, ⟨?_, ?_, ?_, rfl⟩, ?_⟩
  · exact Int.mul_emod_left _ _
  · exact hle
  · show now - msPerDay < utcMidnight now
    simp only [utcMidnight, epochDay]
    omega
  · show (localMidnight off now + off) % msPerDay = 0
    simp only [localMidnight, sub_add_cancel]
    exact Int.mul_emod_left _ _
  · show localMidnight off now ≤ now
    simp only [localMidnight]
    omega
  · show now - msPerDay < localMidnight off now
    simp only [localMidnight]
    omega
  · show localMidnight 0 now = utcMidnight now
    simp [localMidnight, utcMidnight, epochDay]

/-! ## Raw telemetry points and scalar/series reductions -/

/-- A raw telemetry point as returned by the upstream collaborator.  The JS
code passes every value through `parseFloat`; a raw value that does not
parse to a number (`NaN`) is embedded as `none`. -/
structure RawPoint where
  ts : Int
  value : Option ℚ
deriving Repr, DecidableEq

/-- A parsed chart point `{ts, value}` (the presentational `date : string`
field carried by some services is omitted). -/
structure TSPoint where
  ts : Int
  value : ℚ
deriving Repr, DecidableEq

/-- JS `parseFloat(x) || 0`: an unparseable value, like an explicit `0`,
yields `0`. -/
def parseOrZero (v : Option ℚ) : ℚ := v.getD 0

/-- JS `parseFloat(x) || null`: both an unparseable value and an explicit
`0` yield `null`. -/
def parseOrNull (v : Option ℚ) : Option ℚ :=
  match v with
  | none => none
  | some q => if q = 0 then none else some q

namespace PuissanceService

/-- Model of `PuissanceService.extractInstantaneousPower`: the last array element's
value via `parseFloat(...) || null`; `null` on an empty array. -/
def extractInstantaneousPower (powerData : List RawPoint) : Option ℚ :=
  match powerData.getLast? with
  | none => none
  | some p => parseOrNull p.value

/-- Model of `PuissanceService.extractAggregatedConsumption`: `null` on an empty
array, otherwise `total > 0 ? total : null` where `total` sums
`parseFloat(v) || 0` over all points. -/
def extractAggregatedConsumption (consumptionData : List RawPoint) : Option ℚ :=
  if consumptionData = [] then none
  else if 0 < (consumptionData.map (fun d => parseOrZero d.value)).sum then
    some (consumptionData.map (fun d => parseOrZero d.value)).sum
  else none

/-- Model of `PuissanceService.extractAggregatedChartData`: format all points,
coercing unparseable values to `0`. -/
def extractAggregatedChartData (chartData : List RawPoint) : List TSPoint :=
  chartData.map (fun d => { ts := d.ts, value := parseOrZero d.value })

end PuissanceService

namespace GlobalMetersService

/-- Model of `GlobalMetersService.extractInstantaneousPower`: the last array
element's value with an explicit `isNaN` check (so a value of `0` is
preserved); `null` on an empty array. -/
def extractInstantaneousPower (powerData : List RawPoint) : Option ℚ :=
  match powerData.getLast? with
  | none => none
  | some p => p.value

/-- Model of `GlobalMetersService.extractAggregatedConsumption`: identical
`total > 0 ? total : null` reduction as in the puissance service. -/
def extractAggregatedConsumption (consumptionData : List RawPoint) : Option ℚ :=
  if consumptionData = [] then none
  else if 0 < (consumptionData.map (fun d => parseOrZero d.value)).sum then
    some (consumptionData.map (fun d => parseOrZero d.value)).sum
  else none

/-- Model of `GlobalMetersService.extractChartData`: format all points, coercing
unparseable values to `0`. -/
def extractChartData (chartData : List RawPoint) : List TSPoint :=
  chartData.map (fun d => { ts := d.ts, value := parseOrZero d.value })

end GlobalMetersService

namespace CurrentService

/-- Model of `CurrentService.extractSingleValue`: the first array element's value
(the instantaneous query orders descending, so index 0 is the
chronologically last point) with an explicit `isNaN` check; `null` when the
key is missing or the array empty. -/
def extractSingleValue (data : List RawPoint) : Option ℚ :=
  match data with
  | [] => none
  | p :: _ => p.value

/-- Model of `CurrentService.extractTimeseriesData`: parse every point and drop
those whose value does not parse (`filter(p => !isNaN(p.value))`). -/
def extractTimeseriesData (data : List RawPoint) : List TSPoint :=
  data.filterMap (fun p => p.value.map (fun v => { ts := p.ts, value := v }))

end CurrentService

namespace EnergyHistoryService

/-- A transformed energy-history point. -/
structure HistoryPoint where
  timestamp : Int
  value : ℚ
  hasData : Bool
deriving Repr, DecidableEq

/-- Model of `EnergyHistoryService.transformDataPoints`: every raw point is kept; an
unparseable value is coerced to `0` (`parseFloat(point.value) || 0`) and
still tagged `hasData: true`. -/
def transformDataPoints (rawPoints : List RawPoint) : List HistoryPoint :=
  rawPoints.map (fun p => { timestamp := p.ts, value := parseOrZero p.value, hasData := true })

end EnergyHistoryService

/-- C2 counterexample: a non-empty point array whose values sum to zero is
reduced to `null`, not `0`, by `extractAggregatedConsumption` in both the
puissance and global-meters services (`total > 0 ? total : null`). -/
theorem C2_counterexample :
    PuissanceService.extractAggregatedConsumption [⟨0, some 0⟩] = none
    ∧ GlobalMetersService.extractAggregatedConsumption [⟨0, some 0⟩] = none
    ∧ (none : Option ℚ) ≠ some 0 := by
  refine ⟨?_, ?_, by simp⟩ <;>
    simp [PuissanceService.extractAggregatedConsumption,
      GlobalMetersService.extractAggregatedConsumption, parseOrZero]

/-- C2 amended: the sum reduction returns `null` for an empty point array;
for a non-empty array it returns the sum only when that sum is strictly
positive, and collapses a zero (or negative) sum to `null` — so "no data"
and "zero consumption" are *not* distinguished. -/
theorem C2_sum_reduction (pts : List RawPoint) (hne : pts ≠ []) :
    PuissanceService.extractAggregatedConsumption [] = none
    ∧ GlobalMetersService.extractAggregatedConsumption [] = none
    ∧ (0 < (pts.map (fun d => parseOrZero d.value)).sum →
        PuissanceService.extractAggregatedConsumption pts
          = some (pts.map (fun d => parseOrZero d.value)).sum
        ∧ GlobalMetersService.extractAggregatedConsumption pts
          = some (pts.map (fun d => parseOrZero d.value)).sum)
    ∧ ((pts.map (fun d => parseOrZero d.value)).sum ≤ 0 →
        PuissanceService.extractAggregatedConsumption pts = none
        ∧ GlobalMetersService.extractAggregatedConsumption pts = none) := by
  refine ⟨rfl, rfl, ?_, ?_⟩ <;> intro h <;>
    constructor <;>
      simp [PuissanceService.extractAggregatedConsumption,
        GlobalMetersService.extractAggregatedConsumption, hne, h, not_lt.mpr]

/-- C2 witness: a positive-sum array is reduced to its (non-null) sum. -/
theorem C2_sum_reduction_witness :
    PuissanceService.extractAggregatedConsumption [⟨0, some 3⟩] = some 3
    ∧ GlobalMetersService.extractAggregatedConsumption [⟨0, some 3⟩] = some 3 := by
  have hsum : (([⟨0, some 3⟩] : List RawPoint).map (fun d => parseOrZero d.value)).sum
      = (3 : ℚ) := by simp [parseOrZero]
  have h := (C2_sum_reduction [⟨0, some 3⟩] (by simp)).2.2.1 (by rw [hsum]; norm_num)
  rw [hsum] at h
  exact h

/-- C8 counterexample: a non-empty array whose chronologically last value
is `0` is reduced to `null` by `PuissanceService.extractInstantaneousPower`
(`parseFloat(...) || null` conflates `0` with `NaN`), contradicting the
claim that the value `0` is returned. -/
theorem C8_counterexample :
    PuissanceService.extractInstantaneousPower [⟨5, some 0⟩] = none
    ∧ ([⟨5, some 0⟩] : List RawPoint) ≠ []
    ∧ (none : Option ℚ) ≠ some 0 := by
  refine ⟨by decide, by decide, by decide⟩

/-- C8 amended: all three `latest` reducers return `null` exactly on an
empty array, and the global-meters and current reducers return the latest
point's parsed value including `0`; the puissance reducer instead applies
`parseFloat(...) || null`, which maps a latest value of `0` (like an
unparseable one) to `null`. -/
theorem C8_latest_reduction (pts : List RawPoint) (p : RawPoint) :
    (CurrentService.extractSingleValue [] = none
      ∧ GlobalMetersService.extractInstantaneousPower [] = none
      ∧ PuissanceService.extractInstantaneousPower [] = none)
    ∧ (pts.getLast? = some p →
        GlobalMetersService.extractInstantaneousPower pts = p.value)
    ∧ (∀ rest, pts = p :: rest → CurrentService.extractSingleValue pts = p.value)
    ∧ (pts.getLast? = some p →
        PuissanceService.extractInstantaneousPower pts = parseOrNull p.value)
    ∧ parseOrNull (some 0) = none
    ∧ parseOrNull none = none
    ∧ (∀ q : ℚ, q ≠ 0 → parseOrNull (some q) = some q) := by
  refine ⟨⟨rfl, rfl, rfl⟩, ?_, ?_, ?_, by decide, rfl, ?_⟩
  · intro h
    simp [GlobalMetersService.extractInstantaneousPower, h]
  · intro rest h
    simp [CurrentService.extractSingleValue, h]
  · intro h
    simp [PuissanceService.extractInstantaneousPower, h]
  · intro q hq
    simp [parseOrNull, hq]

/-- C8 witness: on a concrete two-point array the global-meters and
puissance reducers return the last value `7`, and on a singleton array the
current reducer returns its value. -/
theorem C8_latest_reduction_witness :
    GlobalMetersService.extractInstantaneousPower [⟨1, some 2⟩, ⟨2, some 7⟩] = some 7
    ∧ PuissanceService.extractInstantaneousPower [⟨1, some 2⟩, ⟨2, some 7⟩] = some 7
    ∧ CurrentService.extractSingleValue [⟨2, some 7⟩] = some 7 := by
  have h := C8_latest_reduction [⟨1, some 2⟩, ⟨2, some 7⟩] ⟨2, some 7⟩
  have h2 := C8_latest_reduction [⟨2, some 7⟩] ⟨2, some 7⟩
  refine ⟨?_, ?_, ?_⟩
  · exact h.2.1 (by decide)
  · rw [h.2.2.2.1 (by decide)]
    exact (h.2.2.2.2.2.2 7 (by norm_num))
  · exact h2.2.2.1 [] rfl

/-- The sum of `parseFloat(v) || 0` is unchanged by dropping the
unparseable points (they contribute `0`). -/
theorem sum_parseOrZero_filter (l : List RawPoint) :
    ((l.filter (fun q => q.value.isSome)).map (fun d => parseOrZero d.value)).sum
      = (l.map (fun d => parseOrZero d.value)).sum := by
  induction l with
  | nil => rfl
  | cons a l ih =>
    by_cases hv : a.value.isSome
    · simp [List.filter_cons, hv, ih]
    · have h0 : parseOrZero a.value = 0 := by
        cases hvv : a.value
        · rfl
        · rw [hvv] at hv
          simp at hv
      simp [List.filter_cons, hv, ih, h0]

theorem puissance_consumption_filter_invariant (data : List RawPoint) :
    PuissanceService.extractAggregatedConsumption data
      = PuissanceService.extractAggregatedConsumption
          (data.filter (fun q => q.value.isSome)) := by
  unfold PuissanceService.extractAggregatedConsumption
  by_cases hd : data = []
  · subst hd
    simp
  · by_cases hf : data.filter (fun q => q.value.isSome) = []
    · have hsum := sum_parseOrZero_filter data
      rw [hf] at hsum
      simp only [List.map_nil, List.sum_nil] at hsum
      simp [hd, hf, ← hsum]
    · have hsum := sum_parseOrZero_filter data
      simp [hd, hf, hsum]

theorem globalmeters_consumption_filter_invariant (data : List RawPoint) :
    GlobalMetersService.extractAggregatedConsumption data
      = GlobalMetersService.extractAggregatedConsumption
          (data.filter (fun q => q.value.isSome)) := by
  unfold GlobalMetersService.extractAggregatedConsumption
  by_cases hd : data = []
  · subst hd
    simp
  · by_cases hf : data.filter (fun q => q.value.isSome) = []
    · have hsum := sum_parseOrZero_filter data
      rw [hf] at hsum
      simp only [List.map_nil, List.sum_nil] at hsum
      simp [hd, hf, ← hsum]
    · have hsum := sum_parseOrZero_filter data
      simp [hd, hf, hsum]

/-- C9 counterexample: a raw point whose value does not parse as a number
*does* appear in the energy-history series — `transformDataPoints` keeps it
with value `0` and `hasData: true` instead of excluding it. -/
theorem C9_counterexample :
    EnergyHistoryService.transformDataPoints [⟨7, none⟩]
      = [{ timestamp := 7, value := 0, hasData := true }]
    ∧ (EnergyHistoryService.transformDataPoints [⟨7, none⟩]).length = 1 := by
  refine ⟨by decide, by decide⟩

/-- C9 amended: an unparseable raw value never fails the request (all
reducers are total), and: the current view's series reducer drops such
points; the puissance/global-meters sum reducers are invariant under
dropping them (they contribute `0`); but the energy-history transform keeps
them, emitting value `0` with `hasData: true`. -/
theorem C9_malformed_points (data : List RawPoint) (p : RawPoint) :
    (CurrentService.extractTimeseriesData data).length
        = (data.filter (fun q => q.value.isSome)).length
    ∧ (∀ q ∈ CurrentService.extractTimeseriesData data,
        ∃ r ∈ data, r.ts = q.ts ∧ r.value = some q.value)
    ∧ PuissanceService.extractAggregatedConsumption data
        = PuissanceService.extractAggregatedConsumption
            (data.filter (fun q => q.value.isSome))
    ∧ GlobalMetersService.extractAggregatedConsumption data
        = GlobalMetersService.extractAggregatedConsumption
            (data.filter (fun q => q.value.isSome))
    ∧ (EnergyHistoryService.transformDataPoints data).length = data.length
    ∧ (p ∈ data → p.value = none →
        ({ timestamp := p.ts, value := 0, hasData := true }
          : EnergyHistoryService.HistoryPoint)
          ∈ EnergyHistoryService.transformDataPoints data) := by
  refine ⟨?_, ?_, puissance_consumption_filter_invariant data,
    globalmeters_consumption_filter_invariant data, ?_, ?_⟩
  · induction data with
    | nil => rfl
    | cons a l ih =>
      cases hvv : a.value with
      | none =>
        have hv : (fun q : RawPoint => q.value.isSome) a = false := by simp [hvv]
        calc (CurrentService.extractTimeseriesData (a :: l)).length
            = (CurrentService.extractTimeseriesData l).length := by
              simp [CurrentService.extractTimeseriesData, List.filterMap_cons, hvv]
          _ = (l.filter (fun q => q.value.isSome)).length := ih
          _ = ((a :: l).filter (fun q => q.value.isSome)).length := by
              simp [List.filter_cons, hv]
      | some v =>
        have hv : (fun q : RawPoint => q.value.isSome) a = true := by simp [hvv]
        calc (CurrentService.extractTimeseriesData (a :: l)).length
            = (CurrentService.extractTimeseriesData l).length + 1 := by
              simp [CurrentService.extractTimeseriesData, List.filterMap_cons, hvv]
          _ = (l.filter (fun q => q.value.isSome)).length + 1 := by rw [ih]
          _ = ((a :: l).filter (fun q => q.value.isSome)).length := by
              simp [List.filter_cons, hv]
  · intro q hq
    simp only [CurrentService.extractTimeseriesData, List.mem_filterMap] at hq
    obtain ⟨r, hr, hmap⟩ := hq
    cases hvv : r.value with
    | none => rw [hvv] at hmap; simp at hmap
    | some v =>
      rw [hvv] at hmap
      simp only [Option.map_some', Option.some_inj] at hmap
      refine ⟨r, hr, ?_, ?_⟩
      · rw [← hmap]
      · rw [hvv, ← hmap]
  · simp [EnergyHistoryService.transformDataPoints]
  · intro hmem hval
    simp only [EnergyHistoryService.transformDataPoints, List.mem_map]
    exact ⟨p, hmem, by rw [hval]; rfl⟩

/-- C9 witness: on a concrete mixed array (one parseable, one malformed
point), the current series keeps exactly the parseable point, the sums are
unchanged by dropping the malformed point, and the energy-history series
keeps the malformed point as `0`. -/
theorem C9_malformed_points_witness :
    (CurrentService.extractTimeseriesData [⟨1, some 5⟩, ⟨2, none⟩]).length = 1
    ∧ PuissanceService.extractAggregatedConsumption [⟨1, some 5⟩, ⟨2, none⟩]
        = PuissanceService.extractAggregatedConsumption
            (([⟨1, some 5⟩, ⟨2, none⟩] : List RawPoint).filter (fun q => q.value.isSome))
    ∧ ({ timestamp := 2, value := 0, hasData := true }
        : EnergyHistoryService.HistoryPoint)
        ∈ EnergyHistoryService.transformDataPoints [⟨1, some 5⟩, ⟨2, none⟩] := by
  have h := C9_malformed_points [⟨1, some 5⟩, ⟨2, none⟩] ⟨2, none⟩
  refine ⟨?_, h.2.2.1, h.2.2.2.2.2 (by decide) rfl⟩
  rw [h.1]
  decide

/-! ## Calendar-bucketed series with gap filling -/

/-- A monthly chart point `{ts, month (1-12), value}` as emitted by
`CurrentService.aggregateToMonths` (the presentational `date` and
`monthYear` strings are omitted). -/
structure MonthPoint where
  ts : Int
  month : Nat
  value : Option ℚ
deriving Repr, DecidableEq

/-- A daily chart point with possible gap (`value: number | null`). -/
structure DayPoint where
  ts : Int
  value : Option ℚ
deriving Repr, DecidableEq

namespace CurrentService

/-- The values of `dailyData` falling in UTC year `y`, month `m` (1-based),
in input order: the contents of the `monthBuckets` entry keyed `"y-m"`. -/
def monthBucket (dailyData : List TSPoint) (y : Int) (m : Nat) : List ℚ :=
  (dailyData.filter (fun p =>
    decide (getUTCFullYear p.ts = y ∧ getUTCMonth p.ts + 1 = m))).map (fun p => p.value)

/-- The value emitted for month `m` of year `y`: the average of the month's
bucket when non-empty, `null` otherwise. -/
def monthValue (dailyData : List TSPoint) (y : Int) (m : Nat) : Option ℚ :=
  if monthBucket dailyData y m = [] then none
  else some ((monthBucket dailyData y m).sum / ((monthBucket dailyData y m).length : ℚ))

/-- The distinct UTC years of the input points (the JS `yearsSet`).  The JS
`Set` keeps first occurrences and the code then sorts the years; the
embedding dedups and sorts numerically ascending.  The final result is
re-sorted by `ts`, so only the set of years matters. -/
def yearsOf (dailyData : List TSPoint) : List Int :=
  (dailyData.map (fun p => getUTCFullYear p.ts)).dedup

/-- Model of `CurrentService.aggregateToMonths`: group points by UTC `(year, month)`,
average within each bucket, and emit *all 12 months of every year that
occurs in the data* (null value for month buckets without data), finally
sorting by timestamp.  For an empty input the code emits the 12 months of
the current UTC year of `new Date()`, so the embedding takes that instant
`now` as a parameter. -/
def aggregateToMonths (now : Int) (dailyData : List TSPoint) : List MonthPoint :=
  if dailyData = [] then
    (List.range 12).map (fun i =>
      { ts := firstOfMonthDay (getUTCFullYear now) (i + 1) * msPerDay
        month := i + 1
        value := none })
  else
    (((yearsOf dailyData).insertionSort (· ≤ ·)).flatMap (fun y =>
      (List.range 12).map (fun i =>
        { ts := firstOfMonthDay y (i + 1) * msPerDay
          month := i + 1
          value := monthValue dailyData y (i + 1) }))).insertionSort
      (fun a b => a.ts ≤ b.ts)

/-- Model of `CurrentService.fillMonthDays`: emit one point per day of the month of
the data's *minimum* timestamp (interpreted in server-local time, offset
`off`), with `null` for days without data; for empty input, fill the
current local month of `new Date()` (instant `now`).  The JS `Map` keyed by
day keeps the last written value, hence `getLast?` below. -/
def fillMonthDays (off now : Int) (monthData : List TSPoint) : List DayPoint :=
  match monthData with
  | [] =>
    (List.range (daysInMonth (getLocalFullYear off now) (getLocalMonth off now : Int))).map
      (fun k =>
        { ts := newLocalDate off (getLocalFullYear off now)
              (getLocalMonth off now : Int) ((k : Int) + 1)
          value := none })
  | p :: rest =>
    let minTs := rest.foldl (fun acc q => min acc q.ts) p.ts
    let y := getLocalFullYear off minTs
    let mIdx : Int := (getLocalMonth off minTs : Int)
    (List.range (daysInMonth y mIdx)).map (fun k =>
      { ts := newLocalDate off y mIdx ((k : Int) + 1)
        value := ((monthData.filter (fun q =>
            decide (getLocalFullYear off q.ts = y ∧ (getLocalMonth off q.ts : Int) = mIdx
              ∧ getLocalDate off q.ts = k + 1))).getLast?).map (fun q => q.value) })

end CurrentService

instance : IsTotal MonthPoint (fun a b => a.ts ≤ b.ts) :=
  ⟨fun a b => Int.le_total a.ts b.ts⟩

instance : IsTrans MonthPoint (fun a b => a.ts ≤ b.ts) :=
  ⟨fun _ _ _ h1 h2 => le_trans h1 h2⟩

/-- The number of calendar months spanned by `[min ts, max ts]` inclusive:
the output length that claim C4 asserts (stated from the claim's words, for
comparison with the code's behaviour). -/
def monthsSpanned (pts : List TSPoint) : Int :=
  12 * (getUTCFullYear ((pts.map (fun p => p.ts)).foldr max ((pts.map (fun p => p.ts)).headD 0))
        - getUTCFullYear ((pts.map (fun p => p.ts)).foldr min ((pts.map (fun p => p.ts)).headD 0)))
    + ((getUTCMonth ((pts.map (fun p => p.ts)).foldr max ((pts.map (fun p => p.ts)).headD 0)) : Int)
        - (getUTCMonth ((pts.map (fun p => p.ts)).foldr min ((pts.map (fun p => p.ts)).headD 0)) : Int))
    + 1

/-- C4 counterexample: a single point on 1 March 2024 spans exactly one
calendar month, yet `aggregateToMonths` emits 12 points (all months of
2024), so the output length is *not* the number of months spanned by
`[min ts, max ts]`. -/
theorem C4_counterexample :
    (CurrentService.aggregateToMonths 0 [⟨firstOfMonthDay 2024 3 * msPerDay, 5⟩]).length = 12
    ∧ monthsSpanned [⟨firstOfMonthDay 2024 3 * msPerDay, 5⟩] = 1
    ∧ (12 : Nat) ≠ 1 := by
  refine ⟨by decide, by decide, by decide⟩

/-- C4 amended: for a non-empty input, `aggregateToMonths` emits exactly 12
points per distinct UTC year occurring among the input timestamps (not the
months spanned by `[min ts, max ts]`): every month 1–12 of every such year
appears, with the bucket average as value when the month has data and
`null` otherwise, and the output is ordered chronologically (ascending
`ts`). -/
theorem C4_aggregateToMonths (now : Int) (pts : List TSPoint) (hne : pts ≠ []) :
    (CurrentService.aggregateToMonths now pts).length
        = 12 * (CurrentService.yearsOf pts).length
    ∧ List.Pairwise (fun a b => a.ts ≤ b.ts) (CurrentService.aggregateToMonths now pts)
    ∧ (∀ y ∈ CurrentService.yearsOf pts, ∀ i, i < 12 →
        ∃ e ∈ CurrentService.aggregateToMonths now pts,
          e.month = i + 1 ∧ e.ts = firstOfMonthDay y (i + 1) * msPerDay
          ∧ e.value = CurrentService.monthValue pts y (i + 1))
    ∧ (∀ e ∈ CurrentService.aggregateToMonths now pts,
        ∃ y ∈ CurrentService.yearsOf pts, ∃ i, i < 12
          ∧ e.month = i + 1 ∧ e.ts = firstOfMonthDay y (i + 1) * msPerDay
          ∧ e.value = CurrentService.monthValue pts y (i + 1))
    ∧ (∀ y : Int, ∀ m : Nat,
        (CurrentService.monthValue pts y m = none
          ↔ ∀ p ∈ pts, ¬(getUTCFullYear p.ts = y ∧ getUTCMonth p.ts + 1 = m))) := by
  have hunfold : CurrentService.aggregateToMonths now pts
      = (((CurrentService.yearsOf pts).insertionSort (· ≤ ·)).flatMap (fun y =>
          (List.range 12).map (fun i =>
            { ts := firstOfMonthDay y (i + 1) * msPerDay
              month := i + 1
              value := CurrentService.monthValue pts y (i + 1) }))).insertionSort
        (fun a b => a.ts ≤ b.ts) := by
    simp only [CurrentService.aggregateToMonths, hne, if_false]
  have hperm := List.perm_insertionSort (fun a b : MonthPoint => a.ts ≤ b.ts)
    (((CurrentService.yearsOf pts).insertionSort (· ≤ ·)).flatMap (fun y =>
      (List.range 12).map (fun i =>
        { ts := firstOfMonthDay y (i + 1) * msPerDay
          month := i + 1
          value := CurrentService.monthValue pts y (i + 1) })))
  have hpermyears := List.perm_insertionSort (fun a b : Int => a ≤ b)
    (CurrentService.yearsOf pts)
  refine ⟨?_, ?_, ?_, ?_, ?_⟩
  · rw [hunfold, List.length_insertionSort, List.length_flatMap]
    have hmap : ∀ y : Int, (List.length ∘ fun y =>
        (List.range 12).map (fun i =>
          ({ ts := firstOfMonthDay y (i + 1) * msPerDay
             month := i + 1
             value := CurrentService.monthValue pts y (i + 1) } : MonthPoint))) y = 12 := by
      intro y
      simp
    rw [List.map_congr_left (fun y _ => hmap y)]
    rw [show (fun _ : Int => (12 : Nat)) = Function.const Int 12 from rfl]
    rw [List.map_const, List.sum_replicate, List.length_insertionSort, smul_eq_mul]
    ring
  · rw [hunfold]
    exact List.sorted_insertionSort _ _
  · intro y hy i hi
    refine ⟨{ ts := firstOfMonthDay y (i + 1) * msPerDay
              month := i + 1
              value := CurrentService.monthValue pts y (i + 1) }, ?_, rfl, rfl, rfl⟩
    rw [hunfold, hperm.mem_iff, List.mem_flatMap]
    exact ⟨y, hpermyears.mem_iff.mpr hy, List.mem_map.mpr ⟨i, List.mem_range.mpr hi, rfl⟩⟩
  · intro e he
    rw [hunfold, hperm.mem_iff, List.mem_flatMap] at he
    obtain ⟨y, hy, hmem⟩ := he
    obtain ⟨i, hi, heq⟩ := List.mem_map.mp hmem
    exact ⟨y, hpermyears.mem_iff.mp hy, i, List.mem_range.mp hi,
      by rw [← heq], by rw [← heq], by rw [← heq]⟩
  · intro y m
    constructor
    · intro hv p hp hcond
      simp only [CurrentService.monthValue] at hv
      by_cases hb : CurrentService.monthBucket pts y m = []
      · have : p ∈ pts.filter (fun p =>
            decide (getUTCFullYear p.ts = y ∧ getUTCMonth p.ts + 1 = m)) :=
          List.mem_filter.mpr ⟨hp, by simp [hcond.1, hcond.2]⟩
        rw [show pts.filter (fun p =>
            decide (getUTCFullYear p.ts = y ∧ getUTCMonth p.ts + 1 = m)) = [] from
          List.map_eq_nil_iff.mp hb] at this
        simp at this
      · rw [if_neg hb] at hv
        simp at hv
    · intro hnone
      have hb : CurrentService.monthBucket pts y m = [] := by
        rw [CurrentService.monthBucket, List.map_eq_nil_iff, List.filter_eq_nil_iff]
        intro p hp
        simp only [decide_eq_true_eq]
        exact hnone p hp
      simp [CurrentService.monthValue, hb]

/-- C4 witness: a single point at the epoch (1 Jan 1970) yields 12 output
months, and January 1970 carries the point's value as its average. -/
theorem C4_aggregateToMonths_witness :
    (CurrentService.aggregateToMonths 0 [⟨0, 1⟩]).length = 12
    ∧ (∃ e ∈ CurrentService.aggregateToMonths 0 [⟨0, 1⟩],
        e.month = 1 ∧ e.ts = firstOfMonthDay 1970 1 * msPerDay
        ∧ e.value = CurrentService.monthValue [⟨0, 1⟩] 1970 1) := by
  have h := C4_aggregateToMonths 0 [⟨0, 1⟩] (by simp)
  have hy : CurrentService.yearsOf [⟨0, 1⟩] = [1970] := by decide
  constructor
  · rw [h.1, hy]
    rfl
  · exact h.2.2.1 1970 (by rw [hy]; exact List.mem_singleton.mpr rfl) 0 (by omega)

/-! ## View assembly services -/

/-- A resolved device (display metadata). -/
structure Device where
  name : String
deriving Repr, DecidableEq

namespace PuissanceService

/-- The `data` part of the puissance view response. -/
structure KPIData where
  instantaneousPower : Option ℚ
  consumedThisHour : Option ℚ
  consumedToday : Option ℚ
  consumedYesterday : Option ℚ
  consumedThisMonth : Option ℚ
  consumedLastMonth : Option ℚ
  hourlyData : List TSPoint
  dailyData : List TSPoint
  monthlyData : List TSPoint
deriving Repr, DecidableEq

/-- The puissance view response (`meta.deviceUUID` and `meta.requestedAt`,
which only echo the request, and the optional debug block are omitted). -/
structure KPIResponse where
  success : Bool
  data : KPIData
  deviceName : String
deriving Repr, DecidableEq

/-- Model of `PuissanceService.fetchTelemetry`: one upstream sub-query; its `catch`
converts any failure into an empty per-key result (`{ key: [] }`), so a
failing sub-query degrades to "no points" instead of throwing. -/
def fetchTelemetry (r : Except String (List RawPoint)) : List RawPoint :=
  match r with
  | .ok pts => pts
  | .error _ => []

/-- Model of `PuissanceService.getPuissanceKPIs`.  Device resolution and the nine
telemetry sub-queries are request-scoped effects, so the embedding receives
their outcomes: the `validateDevice` result and one `Except` per sub-query,
indexed in the order the code lists them (0 instantaneous, 1 thisHour,
2 today, 3 yesterday, 4 thisMonth, 5 lastMonth, 6 todayHourly,
7 thisMonthDaily, 8 yearlyMonthly).  The nine `fetchTelemetry` calls never
throw, so the service's `catch` branch — which returns a `success:false`
response with all-null data rather than rethrowing — is reachable only from
device validation. -/
def getPuissanceKPIs (device : Except String Device)
    (fetch : Fin 9 → Except String (List RawPoint)) : KPIResponse :=
  match device with
  | .error _ =>
    { success := false
      data := { instantaneousPower := none, consumedThisHour := none
                consumedToday := none, consumedYesterday := none
                consumedThisMonth := none, consumedLastMonth := none
                hourlyData := [], dailyData := [], monthlyData := [] }
      deviceName := "Unknown" }
  | .ok dev =>
    { success := true
      data := { instantaneousPower := extractInstantaneousPower (fetchTelemetry (fetch 0))
                consumedThisHour := extractAggregatedConsumption (fetchTelemetry (fetch 1))
                consumedToday := extractAggregatedConsumption (fetchTelemetry (fetch 2))
                consumedYesterday := extractAggregatedConsumption (fetchTelemetry (fetch 3))
                consumedThisMonth := extractAggregatedConsumption (fetchTelemetry (fetch 4))
                consumedLastMonth := extractAggregatedConsumption (fetchTelemetry (fetch 5))
                hourlyData := extractAggregatedChartData (fetchTelemetry (fetch 6))
                dailyData := extractAggregatedChartData (fetchTelemetry (fetch 7))
                monthlyData := extractAggregatedChartData (fetchTelemetry (fetch 8)) }
      deviceName := dev.name }

end PuissanceService

/-- An HTTP response carrying the puissance view body. -/
structure HttpResponse where
  status : Nat
  body : PuissanceService.KPIResponse
deriving Repr, DecidableEq

/-- The `GET /:deviceUUID/puissance` route handler: it serialises whatever
`getPuissanceKPIs` returns with Express's default status `200`
(`res.json(result)`); the handler's `catch` branch (status 502) is
unreachable because `getPuissanceKPIs` never throws. -/
def puissanceRoute (device : Except String Device)
    (fetch : Fin 9 → Except String (List RawPoint)) : HttpResponse :=
  { status := 200, body := PuissanceService.getPuissanceKPIs device fetch }

namespace CurrentService

/-- The `data` part of the current view response. -/
structure KPIData where
  instantaneousCurrent : Option ℚ
  lastHourMin : Option ℚ
  lastHourAverage : Option ℚ
  lastHourMax : Option ℚ
  todayAverage : Option ℚ
  hourlyData : List TSPoint
  widgetData : List TSPoint
  dailyWeekData : List TSPoint
  dailyMonthData : List DayPoint
  dailyYearData : List MonthPoint
deriving Repr, DecidableEq

/-- The current view response (request-echoing meta fields and the debug
block omitted). -/
structure KPIResponse where
  success : Bool
  data : KPIData
  deviceName : String
deriving Repr, DecidableEq

/-- Model of `CurrentService.fetchTelemetry`: logs and *rethrows* any failure — the
sub-query outcome is propagated unchanged. -/
def fetchTelemetry (r : Except String (List RawPoint)) :
    Except String (List RawPoint) := r

/-- The first rejection among the parallel sub-queries (`Promise.all`
fail-fast join; JS rejects with the temporally first rejection, which the
embedding determinises to the lowest index). -/
def firstRejection (rs : List (Except String (List RawPoint))) : Option String :=
  rs.findSome? (fun r => match r with | .error e => some e | .ok _ => none)

/-- Model of `.sort((a, b) => a.ts - b.ts)` applied to the extracted arrays. -/
def sortByTs (l : List TSPoint) : List TSPoint :=
  l.insertionSort (fun a b => a.ts ≤ b.ts)

/-- Model of `CurrentService.getCurrentKPIs`.  Ten sub-queries in code order
(0 instantaneous, 1 lastHourMin, 2 lastHourAvg, 3 lastHourMax, 4 todayAvg,
5 widget, 6 hourly, 7 dailyWeek, 8 dailyMonth, 9 dailyYear).  Because
`fetchTelemetry` rethrows, `Promise.all` rejects the whole assembly as soon
as any sub-query rejects and the outer `catch` rethrows again, so the
result type is `Except`. -/
def getCurrentKPIs (off now : Int) (device : Except String Device)
    (fetch : Fin 10 → Except String (List RawPoint)) : Except String KPIResponse :=
  match device with
  | .error e => .error e
  | .ok dev =>
    match firstRejection ((List.finRange 10).map (fun i => fetchTelemetry (fetch i))) with
    | some e => .error e
    | none =>
      .ok { success := true
            data := { instantaneousCurrent := extractSingleValue ((fetch 0).toOption.getD [])
                      lastHourMin := extractSingleValue ((fetch 1).toOption.getD [])
                      lastHourAverage := extractSingleValue ((fetch 2).toOption.getD [])
                      lastHourMax := extractSingleValue ((fetch 3).toOption.getD [])
                      todayAverage := extractSingleValue ((fetch 4).toOption.getD [])
                      widgetData := sortByTs (extractTimeseriesData ((fetch 5).toOption.getD []))
                      hourlyData := sortByTs (extractTimeseriesData ((fetch 6).toOption.getD []))
                      dailyWeekData := sortByTs (extractTimeseriesData ((fetch 7).toOption.getD []))
                      dailyMonthData := fillMonthDays off now
                        (sortByTs (extractTimeseriesData ((fetch 8).toOption.getD [])))
                      dailyYearData := aggregateToMonths now
                        (extractTimeseriesData ((fetch 9).toOption.getD [])) }
            deviceName := dev.name }

end CurrentService

namespace GlobalMetersService

/-- The per-meter payload of the global-meters batch response (`status` is
the string `'online' | 'offline'`, embedded as a Bool `online`). -/
structure MeterData where
  deviceUUID : String
  name : String
  online : Bool
  instantaneous : Option ℚ
  today : Option ℚ
  yesterday : Option ℚ
  hourlyData : List TSPoint
  monthlyData : List TSPoint
  yearlyData : List TSPoint
deriving Repr, DecidableEq

/-- The batch response (`meta.requestedAt` omitted; `meta.count` kept). -/
structure Response where
  success : Bool
  data : List MeterData
  count : Nat
deriving Repr, DecidableEq

/-- Model of `GlobalMetersService.fetchTelemetry`: catches any failure and returns
the empty per-key result. -/
def fetchTelemetry (r : Except String (List RawPoint)) : List RawPoint :=
  match r with
  | .ok pts => pts
  | .error _ => []

/-- Model of `GlobalMetersService.getDeviceMetersData` for one device: catches every
failure (including device validation) and returns `null`.  Six sub-queries
in code order (0 instantaneous, 1 today, 2 yesterday, 3 todayHourly,
4 last7Days, 5 lastYear). -/
def getDeviceMetersData (uuid : String) (device : Except String Device)
    (fetch : Fin 6 → Except String (List RawPoint)) : Option MeterData :=
  match device with
  | .error _ => none
  | .ok dev =>
    some { deviceUUID := uuid
           name := dev.name
           online := (extractInstantaneousPower (fetchTelemetry (fetch 0))).isSome
           instantaneous := extractInstantaneousPower (fetchTelemetry (fetch 0))
           today := extractAggregatedConsumption (fetchTelemetry (fetch 1))
           yesterday := extractAggregatedConsumption (fetchTelemetry (fetch 2))
           hourlyData := extractChartData (fetchTelemetry (fetch 3))
           monthlyData := extractChartData (fetchTelemetry (fetch 4))
           yearlyData := extractChartData (fetchTelemetry (fetch 5)) }

/-- Model of `GlobalMetersService.getGlobalMetersData`: `Promise.allSettled` over all
requested devices, keeping only fulfilled non-null results.  Because
`getDeviceMetersData` never rejects, settle-all-and-collect collapses to a
`filterMap`; `meta.count` is the number of collected entries and `success`
is `true` (the outer `catch` is unreachable). -/
def getGlobalMetersData (deviceUUIDs : List String)
    (device : String → Except String Device)
    (fetch : String → Fin 6 → Except String (List RawPoint)) : Response :=
  if deviceUUIDs = [] then { success := true, data := [], count := 0 }
  else
    { success := true
      data := deviceUUIDs.filterMap (fun u => getDeviceMetersData u (device u) (fetch u))
      count := (deviceUUIDs.filterMap
        (fun u => getDeviceMetersData u (device u) (fetch u))).length }

end GlobalMetersService

/-! ## Upstream fetcher retry-on-401 -/

namespace ThingsboardTelemetryService

/-- One upstream HTTP attempt: a status/body response, or a thrown network
error. -/
inductive UpstreamOutcome where
  | resp (status : Nat) (data : List RawPoint)
  | netError (msg : String)
deriving Repr, DecidableEq

/-- Model of `private readonly maxRetries = 3`. -/
def maxRetries : Nat := 3

/-- Model of `getTimeseriesWithRetry`: the attempt at `retryCount` consults the
upstream (`upstream retryCount` is the outcome of the `retryCount`-th HTTP
attempt); status 200 returns the body, status 401 with
`retryCount < maxRetries` refreshes the token and recurses with
`retryCount + 1`, and every other outcome throws.  `fuel` makes the
recursion structural; every call instantiates `fuel = maxRetries + 1 -
retryCount`, which keeps the fuel-exhaustion branch unreachable.  The
second component counts the upstream attempts performed. -/
def getTimeseriesWithRetry (upstream : Nat → UpstreamOutcome) :
    Nat → Nat → Except String (List RawPoint) × Nat
  | 0, _ => (.error "out of fuel", 0)
  | fuel + 1, retryCount =>
    match upstream retryCount with
    | .netError msg => (.error msg, retryCount + 1)
    | .resp status data =>
      if status = 200 then (.ok data, retryCount + 1)
      else if status = 401 ∧ retryCount < maxRetries then
        getTimeseriesWithRetry upstream fuel (retryCount + 1)
      else if status = 404 then (.error "Entity not found", retryCount + 1)
      else if status = 400 then (.error "Bad request", retryCount + 1)
      else (.error "ThingsBoard API error", retryCount + 1)

/-- Model of `getTimeseries`: public entry point, starting at `retryCount = 0`. -/
def getTimeseries (upstream : Nat → UpstreamOutcome) :
    Except String (List RawPoint) × Nat :=
  getTimeseriesWithRetry upstream (maxRetries + 1) 0

end ThingsboardTelemetryService

/-! ## Claims about the services -/

instance {ε α : Type} [DecidableEq ε] [DecidableEq α] : DecidableEq (Except ε α) :=
  fun x y =>
    match x, y with
    | .ok a, .ok b =>
      if h : a = b then isTrue (by rw [h])
      else isFalse (fun hc => h (by injection hc))
    | .ok _, .error _ => isFalse (fun hc => Except.noConfusion hc)
    | .error _, .ok _ => isFalse (fun hc => Except.noConfusion hc)
    | .error a, .error b =>
      if h : a = b then isTrue (by rw [h])
      else isFalse (fun hc => h (by injection hc))

/-- Behaviour of the retry loop under the fuel discipline
`retryCount + fuel = maxRetries + 1`, `retryCount ≤ maxRetries`. -/
theorem retry_invariant (upstream : Nat → ThingsboardTelemetryService.UpstreamOutcome) :
    ∀ fuel rc, rc + fuel = ThingsboardTelemetryService.maxRetries + 1 →
      rc ≤ ThingsboardTelemetryService.maxRetries →
      rc < (ThingsboardTelemetryService.getTimeseriesWithRetry upstream fuel rc).2
      ∧ (ThingsboardTelemetryService.getTimeseriesWithRetry upstream fuel rc).2
          ≤ ThingsboardTelemetryService.maxRetries + 1
      ∧ (∀ j, rc ≤ j →
          j + 1 < (ThingsboardTelemetryService.getTimeseriesWithRetry upstream fuel rc).2 →
          ∃ d, upstream j = .resp 401 d)
      ∧ (∀ data,
          (ThingsboardTelemetryService.getTimeseriesWithRetry upstream fuel rc).1 = .ok data →
          upstream ((ThingsboardTelemetryService.getTimeseriesWithRetry upstream fuel rc).2 - 1)
            = .resp 200 data)
      ∧ (∀ msg,
          (ThingsboardTelemetryService.getTimeseriesWithRetry upstream fuel rc).1 = .error msg →
          (ThingsboardTelemetryService.getTimeseriesWithRetry upstream fuel rc).2
              = ThingsboardTelemetryService.maxRetries + 1
          ∨ ∀ d, upstream
              ((ThingsboardTelemetryService.getTimeseriesWithRetry upstream fuel rc).2 - 1)
              ≠ .resp 401 d) := by
  intro fuel
  induction fuel with
  | zero =>
    intro rc hfuel hrc
    exact absurd hfuel (by omega)
  | succ fuel ih =>
    intro rc hfuel hrc
    simp only [ThingsboardTelemetryService.getTimeseriesWithRetry]
    cases heq : upstream rc with
    | netError msg =>
      dsimp only
      refine ⟨Nat.lt_succ_self rc, by omega, ?_, ?_, ?_⟩
      · intro j hj hjlt
        have hjlt2 : j + 1 < rc + 1 := hjlt
        omega
      · intro d hd
        exact Except.noConfusion hd
      · intro m hm
        right
        intro d hne
        have : upstream rc = .resp 401 d := hne
        rw [heq] at this
        exact ThingsboardTelemetryService.UpstreamOutcome.noConfusion this
    | resp status data =>
      dsimp only
      by_cases h200 : status = 200
      · subst h200
        rw [if_pos rfl]
        refine ⟨Nat.lt_succ_self rc, by omega, ?_, ?_, ?_⟩
        · intro j hj hjlt
          have hjlt2 : j + 1 < rc + 1 := hjlt
          omega
        · intro d hd
          have hd2 : (Except.ok data : Except String (List RawPoint)) = .ok d := hd
          have hdd : data = d := by injection hd2
          subst hdd
          exact heq
        · intro m hm
          exact Except.noConfusion hm
      · rw [if_neg h200]
        by_cases h401 : status = 401 ∧ rc < ThingsboardTelemetryService.maxRetries
        · rw [if_pos h401]
          obtain ⟨ih1, ih2, ih3, ih4, ih5⟩ := ih (rc + 1) (by omega) (by omega)
          refine ⟨by omega, ih2, ?_, ih4, ih5⟩
          intro j hj hjlt
          rcases Nat.eq_or_lt_of_le hj with hjeq | hjgt
          · subst hjeq
            exact ⟨data, by rw [heq, h401.1]⟩
          · exact ih3 j (by omega) hjlt
        · rw [if_neg h401]
          have hfinal : ∀ j, rc ≤ j → j + 1 < rc + 1 →
              ∃ d, upstream j = ThingsboardTelemetryService.UpstreamOutcome.resp 401 d := by
            intro j hj hjlt
            omega
          have hlast : rc + 1 = ThingsboardTelemetryService.maxRetries + 1
              ∨ ∀ d, upstream (rc + 1 - 1)
                  ≠ ThingsboardTelemetryService.UpstreamOutcome.resp 401 d := by
            by_cases hs : status = 401
            · left
              have hrc3 : rc = ThingsboardTelemetryService.maxRetries := by
                rcases Nat.lt_or_ge rc ThingsboardTelemetryService.maxRetries with h | h
                · exact absurd ⟨hs, h⟩ h401
                · omega
              omega
            · right
              intro d hne
              have hne2 : upstream rc
                  = ThingsboardTelemetryService.UpstreamOutcome.resp 401 d := hne
              rw [heq] at hne2
              injection hne2 with hs2 hd2
              exact hs hs2
          split_ifs with h404 h400 <;>
            exact ⟨Nat.lt_succ_self rc,
              (show rc + 1 ≤ ThingsboardTelemetryService.maxRetries + 1 by omega),
              hfinal, fun dd hdd => hdd.elim, fun m hm => hlast⟩

/-- C3 counterexample: with `maxRetries = 3`, an upstream that returns 401
on the first two attempts and 200 on the third makes the fetcher succeed
after *two* refresh-and-retry cycles (3 attempts), and an upstream that
always returns 401 is retried three times (4 attempts) before the failure
propagates — not the "exactly one retry, then propagate" the claim
states. -/
theorem C3_counterexample :
    ThingsboardTelemetryService.getTimeseries
        (fun i => if i < 2 then .resp 401 [] else .resp 200 [⟨5, some 7⟩])
      = (.ok [⟨5, some 7⟩], 3)
    ∧ ThingsboardTelemetryService.getTimeseries (fun _ => .resp 401 [])
      = (.error "ThingsBoard API error", 4) := by
  refine ⟨by decide, by decide⟩

/-- C3 amended: on a 401 the fetcher refreshes and retries up to
`maxRetries = 3` times per request (at most 4 upstream attempts): every
attempt that is followed by another got a 401; a success returns the data
of its (200) attempt; and when every attempt yields 401 the failure is
propagated only after all `maxRetries + 1 = 4` attempts.  A non-401 failure
is never retried (it ends the loop immediately, as the "followed by another
⇒ 401" property shows). -/
theorem C3_retry_bound (upstream : Nat → ThingsboardTelemetryService.UpstreamOutcome) :
    (ThingsboardTelemetryService.getTimeseries upstream).2
        ≤ ThingsboardTelemetryService.maxRetries + 1
    ∧ 0 < (ThingsboardTelemetryService.getTimeseries upstream).2
    ∧ (∀ j, j + 1 < (ThingsboardTelemetryService.getTimeseries upstream).2 →
        ∃ d, upstream j = .resp 401 d)
    ∧ (∀ data, (ThingsboardTelemetryService.getTimeseries upstream).1 = .ok data →
        upstream ((ThingsboardTelemetryService.getTimeseries upstream).2 - 1)
          = .resp 200 data)
    ∧ ((∀ j, j ≤ ThingsboardTelemetryService.maxRetries → ∃ d, upstream j = .resp 401 d) →
        ∃ msg, (ThingsboardTelemetryService.getTimeseries upstream).1 = .error msg
          ∧ (ThingsboardTelemetryService.getTimeseries upstream).2
              = ThingsboardTelemetryService.maxRetries + 1) := by
  have hdef : ThingsboardTelemetryService.getTimeseries upstream
      = ThingsboardTelemetryService.getTimeseriesWithRetry upstream
          (ThingsboardTelemetryService.maxRetries + 1) 0 := rfl
  rw [hdef]
  obtain ⟨h1, h2, h3, h4, h5⟩ :=
    retry_invariant upstream (ThingsboardTelemetryService.maxRetries + 1) 0 rfl (by omega)
  refine ⟨h2, h1, fun j hj => h3 j (Nat.zero_le j) hj, h4, ?_⟩
  intro hall
  cases hres : (ThingsboardTelemetryService.getTimeseriesWithRetry upstream
      (ThingsboardTelemetryService.maxRetries + 1) 0).1 with
  | ok data =>
    exfalso
    have hlast := h4 data hres
    obtain ⟨d, hd⟩ := hall ((ThingsboardTelemetryService.getTimeseriesWithRetry upstream
      (ThingsboardTelemetryService.maxRetries + 1) 0).2 - 1) (by omega)
    rw [hlast] at hd
    injection hd with hs hd2
    exact absurd hs (by omega)
  | error msg =>
    refine ⟨msg, rfl, ?_⟩
    rcases h5 msg hres with hc | hc
    · exact hc
    · exfalso
      obtain ⟨d, hd⟩ := hall ((ThingsboardTelemetryService.getTimeseriesWithRetry upstream
        (ThingsboardTelemetryService.maxRetries + 1) 0).2 - 1) (by omega)
      exact hc d hd

/-- C3 witness: the amended theorem applied to an always-expired upstream:
4 attempts, then a propagated error. -/
theorem C3_retry_bound_witness :
    ∃ msg, (ThingsboardTelemetryService.getTimeseries (fun _ => .resp 401 [])).1
        = .error msg
      ∧ (ThingsboardTelemetryService.getTimeseries (fun _ => .resp 401 [])).2
          = ThingsboardTelemetryService.maxRetries + 1 :=
  (C3_retry_bound (fun _ => .resp 401 [])).2.2.2.2 (fun _ _ => ⟨[], rfl⟩)

/-- Fetch oracle where sub-query 0 fails and the other nine succeed. -/
def c1FailFetch : Fin 10 → Except String (List RawPoint) :=
  fun i => if i = 0 then .error "upstream 500" else .ok [⟨0, some 1⟩]

/-- Fetch oracle for the puissance view where sub-query 2 (consumedToday)
fails and the other eight succeed. -/
def c1PartialFetch : Fin 9 → Except String (List RawPoint) :=
  fun i => if i = 2 then .error "boom" else .ok [⟨0, some 1⟩]

/-- C1 counterexample: in `CurrentService.getCurrentKPIs` one failing
sub-query among nine succeeding ones fails the *whole* view assembly
(`fetchTelemetry` rethrows and `Promise.all` rejects), instead of yielding
a `success:true` response with a `null` only for the affected KPI. -/
theorem C1_counterexample :
    CurrentService.getCurrentKPIs 0 0 (.ok ⟨"Meter"⟩) c1FailFetch
      = .error "upstream 500" := by
  rfl

/-- C1 amended: partial-failure isolation holds for
`PuissanceService.getPuissanceKPIs` — with a resolved device the response
always has `success:true`, every KPI/series is computed from its own
sub-query only, a failed sub-query degrades to the empty point array, and
the empty array reduces to `null` scalars / empty series — but *not* for
`CurrentService.getCurrentKPIs`, where any failing sub-query fails the
whole view response. -/
theorem C1_failure_isolation (dev : Device)
    (fetch : Fin 9 → Except String (List RawPoint)) :
    (PuissanceService.getPuissanceKPIs (.ok dev) fetch).success = true
    ∧ (PuissanceService.getPuissanceKPIs (.ok dev) fetch).data
        = { instantaneousPower := PuissanceService.extractInstantaneousPower
              (PuissanceService.fetchTelemetry (fetch 0))
            consumedThisHour := PuissanceService.extractAggregatedConsumption
              (PuissanceService.fetchTelemetry (fetch 1))
            consumedToday := PuissanceService.extractAggregatedConsumption
              (PuissanceService.fetchTelemetry (fetch 2))
            consumedYesterday := PuissanceService.extractAggregatedConsumption
              (PuissanceService.fetchTelemetry (fetch 3))
            consumedThisMonth := PuissanceService.extractAggregatedConsumption
              (PuissanceService.fetchTelemetry (fetch 4))
            consumedLastMonth := PuissanceService.extractAggregatedConsumption
              (PuissanceService.fetchTelemetry (fetch 5))
            hourlyData := PuissanceService.extractAggregatedChartData
              (PuissanceService.fetchTelemetry (fetch 6))
            dailyData := PuissanceService.extractAggregatedChartData
              (PuissanceService.fetchTelemetry (fetch 7))
            monthlyData := PuissanceService.extractAggregatedChartData
              (PuissanceService.fetchTelemetry (fetch 8)) }
    ∧ (∀ e : String, PuissanceService.fetchTelemetry (.error e) = [])
    ∧ PuissanceService.extractInstantaneousPower [] = none
    ∧ PuissanceService.extractAggregatedConsumption [] = none
    ∧ PuissanceService.extractAggregatedChartData [] = []
    ∧ (∀ (off now : Int) (fetchC : Fin 10 → Except String (List RawPoint))
        (i : Fin 10) (e : String),
        fetchC i = .error e →
          ∃ msg, CurrentService.getCurrentKPIs off now (.ok dev) fetchC = .error msg) := by
  refine ⟨rfl, rfl, fun e => rfl, rfl, rfl, rfl, ?_⟩
  intro off now fetchC i e hie
  cases hfr : CurrentService.firstRejection
      ((List.finRange 10).map (fun j => CurrentService.fetchTelemetry (fetchC j))) with
  | some msg =>
    refine ⟨msg, ?_⟩
    simp only [CurrentService.getCurrentKPIs, hfr]
  | none =>
    exfalso
    rw [CurrentService.firstRejection, List.findSome?_eq_none_iff] at hfr
    have hmem : CurrentService.fetchTelemetry (fetchC i)
        ∈ (List.finRange 10).map (fun j => CurrentService.fetchTelemetry (fetchC j)) :=
      List.mem_map.mpr ⟨i, List.mem_finRange i, rfl⟩
    have hnone := hfr _ hmem
    rw [CurrentService.fetchTelemetry, hie] at hnone
    simp at hnone

/-- C1 witness: with a failing `consumedToday` sub-query the puissance
response still succeeds, that KPI alone degrading to `null` while a sibling
KPI keeps its value; the same situation fails the whole current view. -/
theorem C1_failure_isolation_witness :
    (PuissanceService.getPuissanceKPIs (.ok ⟨"Meter"⟩) c1PartialFetch).success = true
    ∧ (PuissanceService.getPuissanceKPIs (.ok ⟨"Meter"⟩) c1PartialFetch).data.consumedToday
        = none
    ∧ (PuissanceService.getPuissanceKPIs (.ok ⟨"Meter"⟩) c1PartialFetch).data.instantaneousPower
        = some 1
    ∧ (∃ msg, CurrentService.getCurrentKPIs 0 0 (.ok ⟨"Meter"⟩) c1FailFetch = .error msg) := by
  have h := C1_failure_isolation ⟨"Meter"⟩ c1PartialFetch
  refine ⟨h.1, ?_, ?_, h.2.2.2.2.2.2 0 0 c1FailFetch 0 "upstream 500" rfl⟩
  · rw [h.2.1]
    show PuissanceService.extractAggregatedConsumption
        (PuissanceService.fetchTelemetry (c1PartialFetch 2)) = none
    rfl
  · rw [h.2.1]
    show PuissanceService.extractInstantaneousPower
        (PuissanceService.fetchTelemetry (c1PartialFetch 0)) = some 1
    simp [c1PartialFetch, PuissanceService.fetchTelemetry,
      PuissanceService.extractInstantaneousPower, parseOrNull]

/-- C7 counterexample: a failing device resolution on the puissance route
produces HTTP 200 (Express's default for `res.json`) with `success:false`
in the body — not the HTTP 404 the claim states (`getPuissanceKPIs`
swallows the error and returns a failure envelope; the route's error
branch never fires). -/
theorem C7_counterexample :
    (puissanceRoute (.error "Device not found: nonexistent") (fun _ => .ok [])).status = 200
    ∧ (puissanceRoute (.error "Device not found: nonexistent") (fun _ => .ok [])).body.success
        = false
    ∧ (puissanceRoute (.error "Device not found: nonexistent") (fun _ => .ok [])).status ≠ 404 := by
  exact ⟨rfl, rfl, by decide⟩

/-- C7 amended: when device resolution fails, the puissance route responds
with HTTP status 200 and body `success:false` (all KPIs null, all series
empty); a resolved device also yields status 200, with `success:true`. -/
theorem C7_device_not_found (e : String) (dev : Device)
    (fetch : Fin 9 → Except String (List RawPoint)) :
    (puissanceRoute (.error e) fetch).status = 200
    ∧ (puissanceRoute (.error e) fetch).body.success = false
    ∧ (puissanceRoute (.error e) fetch).body.data
        = { instantaneousPower := none, consumedThisHour := none
            consumedToday := none, consumedYesterday := none
            consumedThisMonth := none, consumedLastMonth := none
            hourlyData := [], dailyData := [], monthlyData := [] }
    ∧ (puissanceRoute (.ok dev) fetch).status = 200
    ∧ (puissanceRoute (.ok dev) fetch).body.success = true := by
  exact ⟨rfl, rfl, rfl, rfl, rfl⟩

theorem length_filterMap_eq_count {α β : Type} (f : α → Option β) (l : List α) :
    (l.filterMap f).length = (l.filter (fun a => (f a).isSome)).length := by
  induction l with
  | nil => rfl
  | cons a l ih =>
    cases hf : f a with
    | none => simp [List.filterMap_cons, List.filter_cons, hf, ih]
    | some b => simp [List.filterMap_cons, List.filter_cons, hf, ih]

/-- C10: the global-meters batch settles every per-device fetch; a device
whose resolution or fetch pipeline fails is silently omitted (no `null`
placeholder), the response still has `success:true`, `meta.count` always
equals the length of the returned `data` array, and that length is at most
the number of requested devices (exactly the number of devices whose
per-device assembly succeeded), each entry coming from a requested
device. -/
theorem C10_global_meters (deviceUUIDs : List String)
    (device : String → Except String Device)
    (fetch : String → Fin 6 → Except String (List RawPoint)) :
    (GlobalMetersService.getGlobalMetersData deviceUUIDs device fetch).success = true
    ∧ (GlobalMetersService.getGlobalMetersData deviceUUIDs device fetch).count
        = (GlobalMetersService.getGlobalMetersData deviceUUIDs device fetch).data.length
    ∧ (GlobalMetersService.getGlobalMetersData deviceUUIDs device fetch).data.length
        ≤ deviceUUIDs.length
    ∧ (GlobalMetersService.getGlobalMetersData deviceUUIDs device fetch).data.length
        = (deviceUUIDs.filter (fun u =>
            (GlobalMetersService.getDeviceMetersData u (device u) (fetch u)).isSome)).length
    ∧ (∀ g ∈ (GlobalMetersService.getGlobalMetersData deviceUUIDs device fetch).data,
        ∃ u ∈ deviceUUIDs,
          GlobalMetersService.getDeviceMetersData u (device u) (fetch u) = some g)
    ∧ (∀ u ∈ deviceUUIDs, ∀ g,
        GlobalMetersService.getDeviceMetersData u (device u) (fetch u) = some g →
          g ∈ (GlobalMetersService.getGlobalMetersData deviceUUIDs device fetch).data) := by
  by_cases hd : deviceUUIDs = []
  · subst hd
    simp [GlobalMetersService.getGlobalMetersData]
  · simp only [GlobalMetersService.getGlobalMetersData, hd, if_false]
    refine ⟨by trivial, by trivial, List.length_filterMap_le _ _,
      length_filterMap_eq_count _ _, ?_, ?_⟩
    · intro g hg
      exact List.mem_filterMap.mp hg
    · intro u hu g hg
      exact List.mem_filterMap.mpr ⟨u, hu, hg⟩

/-- Device oracle for the C10 witness: `"a"` resolves, `"b"` does not. -/
def c10Device : String → Except String Device :=
  fun u => if u = "a" then .ok ⟨"A"⟩ else .error "not found"

/-- Fetch oracle for the C10 witness: every sub-query returns no points. -/
def c10Fetch : String → Fin 6 → Except String (List RawPoint) :=
  fun _ _ => .ok []

/-- C10 witness: requesting devices `["a", "b"]` where `"b"` fails yields
`success:true`, one entry (for `"a"`), and `count = 1 ≤ 2`. -/
theorem C10_global_meters_witness :
    (GlobalMetersService.getGlobalMetersData ["a", "b"] c10Device c10Fetch).success = true
    ∧ (GlobalMetersService.getGlobalMetersData ["a", "b"] c10Device c10Fetch).count = 1
    ∧ (GlobalMetersService.getGlobalMetersData ["a", "b"] c10Device c10Fetch).data.length ≤ 2
    ∧ ({ deviceUUID := "a", name := "A", online := false
         instantaneous := none, today := none, yesterday := none
         hourlyData := [], monthlyData := [], yearlyData := [] }
        : GlobalMetersService.MeterData)
        ∈ (GlobalMetersService.getGlobalMetersData ["a", "b"] c10Device c10Fetch).data := by
  have h := C10_global_meters ["a", "b"] c10Device c10Fetch
  refine ⟨h.1, ?_, h.2.2.1, ?_⟩
  · rw [h.2.1, h.2.2.2.1]
    decide
  · exact h.2.2.2.2.2 "a" (by decide) _ (by decide)

end IndusMind
